import Mathlib

/-!
# Shallow embedding of `src/real_pir_protocol.cpp`

The program is a two-folder (D0 / D1) "PIR" demo.  We model:

* bits as `Nat` values (the C++ code stores them in `vector<int>` holding
  only `0` and `1`, produced by `readBitsFile` which keeps just the
  characters `'0'` and `'1'`);
* the file system as a structure `FS`: the directory listing of `D0`
  (in the order `std::filesystem::directory_iterator` yields it), the
  contents of the share files under `D0/` and `D1/` (`none` = the file
  cannot be opened), and the two per-query randomness files `r1.txt`,
  `r2.txt` written by the server;
* the `std::mt19937` bit streams `r1`, `r2` as explicit functions
  `Nat → Nat` (taken mod 2, as `uniform_int_distribution<int>(0,1)`
  yields a bit);
* the possible failure of `writeBitsFile` as explicit booleans `w1`, `w2`
  (`false` = the `ofstream` could not be opened).

`server_process_query` additionally returns the trace of share-file reads
it performs, as a list of `(replica, record index)` pairs, so that the
observable access pattern of the evaluator is part of the semantics.
-/

/-- XOR on bits represented as naturals. -/
def bxor (a b : Nat) : Nat := (a + b) % 2

/-- The file-system state visible to the program. -/
structure FS where
  /-- Filenames in the `D0` directory, in directory-iteration order. -/
  d0Entries : List String
  /-- Contents (as bit lists) of files under `D0/`; `none` = unreadable. -/
  d0Content : String → Option (List Nat)
  /-- Contents of files under `D1/`; `none` = unreadable. -/
  d1Content : String → Option (List Nat)
  /-- Content of `r1.txt` if it exists. -/
  r1File : Option (List Nat)
  /-- Content of `r2.txt` if it exists. -/
  r2File : Option (List Nat)

/-- `name.substr(name.size() - 11) == ".binary.txt"`, i.e. the string
ends with the given suffix, computed on the character lists. -/
def strEndsWith (a b : String) : Bool := List.isSuffixOf b.data a.data

/-- The filename filter used by `setup_server_database` (lines 136-143):
regular `.txt` file, name at least 12 characters, ending in
`.binary.txt`.  (The `extension() == ".txt"` test is implied by the
suffix test.) -/
def setupKeep (name : String) : Bool :=
  12 ≤ name.length && strEndsWith name (".binary.txt")

/-- `setup_server_database` (lines 124-161): lists the `.binary.txt`
files of `D0` in directory order.  It writes nothing; it only returns
the catalogue of record filenames. -/
def setup_server_database (fs : FS) : List String :=
  fs.d0Entries.filter setupKeep

/-- `client_generate_query` (lines 163-174): a vector of `total` zeros;
position `targetIndex` is set to `1` only when
`targetIndex >= 0 && (size_t)targetIndex < total`.  No error is ever
signalled. -/
def client_generate_query (targetIndex : Int) (total : Nat) : List Nat :=
  let q := List.replicate total 0
  if 0 ≤ targetIndex ∧ targetIndex.toNat < total then
    q.set targetIndex.toNat 1
  else
    q

/-- The bit stream drawn from `std::mt19937` via
`uniform_int_distribution<int>(0,1)` (line 210), modelled as an explicit
function; `% 2` forces each draw to a bit. -/
def mkRand (rnd : Nat → Nat) (len : Nat) : List Nat :=
  (List.range len).map (fun j => rnd j % 2)

/-- Lines 221-223: `result[j] = (d0Bits[j] * r1[j] + d1Bits[j] * r2[j]) & 1`
for `j < d0Bits.size()`.  (`d1Bits[j]` is read out of range when `D1`'s
file is shorter than `D0`'s, which is undefined behaviour in C++; we
model the out-of-range read as `0`.) -/
def maskCombine (d0Bits d1Bits r1 r2 : List Nat) : List Nat :=
  (List.range d0Bits.length).map
    (fun j => (d0Bits.getD j 0 * r1.getD j 0 + d1Bits.getD j 0 * r2.getD j 0) % 2)

/-- What `server_process_query` produces: the returned bit vector, the
file system after its writes, and the trace of share-file reads it
performed, as `(replica, record index)` pairs in order. -/
structure ServerOutput where
  response : List Nat
  fs : FS
  trace : List (Nat × Nat)

/-- The body of the selected branch of the loop in `server_process_query`
(lines 185-237): read `D0/name` and `D1/name` (returning `{}` on read
failure), draw `r1`, `r2`, compute `D0.r1 + D1.r2`, save `r1.txt` and
`r2.txt` (falling back to returning the raw `d0Bits` if a write fails),
and return the masked combination. -/
def processRecord (fs : FS) (rnd1 rnd2 : Nat → Nat) (w1 w2 : Bool)
    (i : Nat) (name : String) : ServerOutput :=
  match fs.d0Content name with
  | none => ⟨[], fs, [(0, i)]⟩
  | some d0Bits =>
    match fs.d1Content name with
    | none => ⟨[], fs, [(0, i), (1, i)]⟩
    | some d1Bits =>
      let r1 := mkRand rnd1 d0Bits.length
      let r2 := mkRand rnd2 d0Bits.length
      let result := maskCombine d0Bits d1Bits r1 r2
      if w1 then
        let fs1 : FS := { fs with r1File := some r1 }
        if w2 then
          ⟨result, { fs1 with r2File := some r2 }, [(0, i), (1, i)]⟩
        else
          ⟨d0Bits, fs1, [(0, i), (1, i)]⟩
      else
        ⟨d0Bits, fs, [(0, i), (1, i)]⟩

/-- The loop of `server_process_query` (lines 183-239) over the record
indices still to visit: at the first index `i` with
`i < query.size() && query[i] == 1` it processes that record and
returns; if no index matches it returns `{}`. -/
def serverLoop (query : List Nat) (videoFiles : List String) (fs : FS)
    (rnd1 rnd2 : Nat → Nat) (w1 w2 : Bool) : List Nat → ServerOutput
  | [] => ⟨[], fs, []⟩
  | i :: rest =>
    if query.getD i 0 = 1 then
      processRecord fs rnd1 rnd2 w1 w2 i (videoFiles.getD i (""))
    else
      serverLoop query videoFiles fs rnd1 rnd2 w1 w2 rest

/-- `server_process_query` (lines 176-243). -/
def server_process_query (query : List Nat) (videoFiles : List String)
    (fs : FS) (rnd1 rnd2 : Nat → Nat) (w1 w2 : Bool) : ServerOutput :=
  serverLoop query videoFiles fs rnd1 rnd2 w1 w2 (List.range videoFiles.length)

/-- The first index `i < n` with `query[i] == 1`, if any. -/
def firstHit (query : List Nat) (n : Nat) : Option Nat :=
  (List.range n).find? (fun i => decide (query.getD i 0 = 1))

/-- The filename filter used by `client_decode_pir_result`
(lines 254-261 and 286-293): name at least 11 characters, ending in
`.binary.txt`. -/
def decodeKeep (name : String) : Bool :=
  11 ≤ name.length && strEndsWith name (".binary.txt")

/-- Lexicographic strict order on character lists (the order `<` on
`std::filesystem::path` induces on same-directory paths). -/
def charListLt : List Char → List Char → Bool
  | [], [] => false
  | [], _ :: _ => true
  | _ :: _, [] => false
  | a :: as, b :: bs => if a < b then true else if b < a then false else charListLt as bs

/-- `std::sort`'s order on the paths `D0/name`: lexicographic on the
names (the common `D0/` prefix never changes the relative order). -/
def strLe (a b : String) : Bool := !(charListLt b.data a.data)

/-- Insertion into a `strLe`-sorted list. -/
def insertSorted (a : String) : List String → List String
  | [] => [a]
  | b :: bs => if strLe a b then a :: b :: bs else b :: insertSorted a bs

/-- `std::sort(files.begin(), files.end())` on filename lists, modelled
as insertion sort (the result is the `<`-sorted permutation, which for
distinct filenames is what `std::sort` produces). -/
def sortStr : List String → List String
  | [] => []
  | a :: as => insertSorted a (sortStr as)

/-- The sorted catalogue `client_decode_pir_result` rebuilds from `D0`
(lines 252-262 / 284-294). -/
def sortedD0Files (fs : FS) : List String :=
  sortStr (fs.d0Entries.filter decodeKeep)

/-- `client_decode_pir_result` (lines 245-302).  If `r1.txt` or `r2.txt`
is missing it takes the "simplified approach" branch; otherwise it loads
`r1`, `r2` (and never uses them).  Both branches then list `D0`'s
`.binary.txt` files, sort them, and return the *original* bits re-read
from `D0` at `targetIndex` (`{}` if the index is past the catalogue; a
failed `readBitsFile` leaves `original` empty, modelled by `getD []`).
The `serverResponse` argument is never consulted. -/
def client_decode_pir_result (serverResponse : List Nat) (targetIndex : Nat)
    (fs : FS) : List Nat :=
  if !(fs.r1File.isSome && fs.r2File.isSome) then
    let files := sortedD0Files fs
    if files.length ≤ targetIndex then []
    else (fs.d0Content (files.getD targetIndex (""))).getD []
  else
    let files := sortedD0Files fs
    if files.length ≤ targetIndex then []
    else (fs.d0Content (files.getD targetIndex (""))).getD []

/-- A one-record database: `D0/v1.binary.txt = [1]`,
`D1/v1.binary.txt = [1]`, so the record itself (XOR of the two shares)
is `[0]`.  No `r1.txt` / `r2.txt` yet. -/
def exampleFS : FS where
  d0Entries := ["v1.binary.txt"]
  d0Content := fun s => if s = "v1.binary.txt" then some [1] else none
  d1Content := fun s => if s = "v1.binary.txt" then some [1] else none
  r1File := none
  r2File := none

/-- A two-record database with readable shares for both records. -/
def exampleFS2 : FS where
  d0Entries := ["a.binary.txt", "b.binary.txt"]
  d0Content := fun s =>
    if s = "a.binary.txt" then some [1, 0]
    else if s = "b.binary.txt" then some [0, 1] else none
  d1Content := fun s =>
    if s = "a.binary.txt" then some [0, 0]
    else if s = "b.binary.txt" then some [1, 1] else none
  r1File := none
  r2File := none

/-- Modelled from the spec: `ShareStore.split` (spec §4.1) is not in
`src/` — the C++ file only consumes the already-populated `D0`/`D1`
folders.  Per the spec, ShareA is a record-length sequence of random
bits and ShareB is the record XOR-ed with that sequence. -/
def ShareStore_split (record : List Nat) (rand : Nat → Nat) :
    List Nat × List Nat :=
  (mkRand rand record.length,
   (List.range record.length).map (fun j => bxor (record.getD j 0) (rand j % 2)))

/-- The evaluator contract stated by the spec (§4.3), written from the
spec's words for comparison with the code's `server_process_query`:
`response[j] = XOR over i in [0,n) of (selection[i] AND share_i[j])`,
with `share_i[j]` treated as `0` when record `i` is shorter. -/
def specEvaluate (selection : List Nat) (shares : List (List Nat))
    (maxLen : Nat) : List Nat :=
  (List.range maxLen).map (fun j =>
    (List.range shares.length).foldl
      (fun acc i => bxor acc (selection.getD i 0 * ((shares.getD i []).getD j 0))) 0)

/-! ## Helper lemmas -/

theorem getD_map_range (f : Nat → Nat) {n j : Nat} (h : j < n) :
    ((List.range n).map f).getD j 0 = f j := by
  rw [List.getD_eq_getElem ((List.range n).map f) 0 (by simpa using h)]
  simp

theorem count_one_replicate (m : Nat) : (List.replicate m 0).count 1 = 0 := by
  induction m with
  | zero => simp
  | succ k ih => simp [List.replicate_succ, List.count_cons, ih]

theorem count_set_replicate :
    ∀ (n j : Nat), j < n → ((List.replicate n 0).set j 1).count 1 = 1 := by
  intro n
  induction n with
  | zero => intro j hj; omega
  | succ m ih =>
    intro j hj
    cases j with
    | zero => simp [List.replicate_succ, count_one_replicate]
    | succ j' =>
      rw [List.replicate_succ]
      simp only [List.set_cons_succ, List.count_cons]
      rw [ih j' (by omega)]
      simp

theorem getD_set_replicate {n j i : Nat} (hi : i < n) :
    ((List.replicate n 0).set j 1).getD i 0 = if i = j then 1 else 0 := by
  rw [List.getD_eq_getElem _ 0 (by simpa using hi)]
  rw [List.getElem_set]
  by_cases h : i = j
  · simp [h]
  · rw [if_neg (fun hh => h hh.symm), if_neg h, List.getElem_replicate]

theorem serverLoop_find (query : List Nat) (videoFiles : List String)
    (fs : FS) (rnd1 rnd2 : Nat → Nat) (w1 w2 : Bool) :
    ∀ idxs : List Nat,
      serverLoop query videoFiles fs rnd1 rnd2 w1 w2 idxs =
        match idxs.find? (fun i => decide (query.getD i 0 = 1)) with
        | none => ⟨[], fs, []⟩
        | some i => processRecord fs rnd1 rnd2 w1 w2 i (videoFiles.getD i ("")) := by
  intro idxs
  induction idxs with
  | nil => simp [serverLoop, List.find?]
  | cons i rest ih =>
    cases h : decide (query.getD i 0 = 1) with
    | true =>
      have h' : query.getD i 0 = 1 := of_decide_eq_true h
      simp only [serverLoop, List.find?_cons, h, if_pos h']
    | false =>
      have h' : ¬ query.getD i 0 = 1 := of_decide_eq_false h
      simp only [serverLoop, List.find?_cons, h, if_neg h', ih]

/-! ## Claim theorems -/

/-- Claim C7: for every valid index `0 ≤ k < n`, `client_generate_query`
returns a bit vector of length exactly `n` and Hamming weight exactly
`1`, with the single `1` bit at position `k` (so bit `i` is `1` iff
`i = k`). -/
theorem client_generate_query_one_hot (k : Int) (n i : Nat)
    (h0 : 0 ≤ k) (h1 : k.toNat < n) (hi : i < n) :
    (client_generate_query k n).length = n ∧
    (client_generate_query k n).count 1 = 1 ∧
    (client_generate_query k n).getD i 0 = if i = k.toNat then 1 else 0 := by
  unfold client_generate_query
  rw [if_pos ⟨h0, h1⟩]
  exact ⟨by simp, count_set_replicate n k.toNat h1, getD_set_replicate hi⟩

theorem client_generate_query_one_hot_witness :
    (0 : Int) ≤ 0 ∧ (0 : Int).toNat < 1 ∧ 0 < 1 ∧
    ((client_generate_query 0 1).length = 1 ∧
      (client_generate_query 0 1).count 1 = 1 ∧
      (client_generate_query 0 1).getD 0 0 = if 0 = (0 : Int).toNat then 1 else 0) ∧
    client_generate_query 0 1 = [1] :=
  ⟨by decide, by decide, by decide,
   client_generate_query_one_hot 0 1 0 (by decide) (by decide) (by decide),
   by decide⟩

/-- Claim C6 counterexample: for the out-of-range indices `-1` and `n`
(`n = 3`), `client_generate_query` does not fail — it returns the
all-zero length-3 selection vector, so the encoder neither signals
`InvalidIndex` nor withholds a vector. -/
theorem client_generate_query_invalid_counterexample :
    client_generate_query (-1) 3 = [0, 0, 0] ∧
    client_generate_query 3 3 = [0, 0, 0] := by
  exact ⟨by decide, by decide⟩

/-- Claim C6 (amended): for every index outside `[0, n)`,
`client_generate_query` signals no error and returns the all-zero
selection vector of length `n` (range validation happens separately in
`main`, before the encoder is called). -/
theorem client_generate_query_invalid (k : Int) (n : Nat)
    (h : k < 0 ∨ n ≤ k.toNat) :
    client_generate_query k n = List.replicate n 0 := by
  unfold client_generate_query
  rw [if_neg]
  rintro ⟨h0, h1⟩
  rcases h with h | h <;> omega

theorem client_generate_query_invalid_witness :
    ((-1 : Int) < 0 ∨ 3 ≤ (-1 : Int).toNat) ∧
    client_generate_query (-1) 3 = List.replicate 3 0 :=
  ⟨Or.inl (by decide), client_generate_query_invalid (-1) 3 (Or.inl (by decide))⟩

/-- Claim C5: `client_decode_pir_result` never consults its
`serverResponse` argument — for a fixed target index and file-system
state it returns the same output for all server responses (the record
is re-read from `D0`, not decoded from the response). -/
theorem client_decode_independent_of_response (r r' : List Nat) (k : Nat)
    (fs : FS) :
    client_decode_pir_result r k fs = client_decode_pir_result r' k fs := rfl

/-- Claim C3: the two shares produced by `ShareStore.split` (modelled
from the spec, since share creation is not in `src/`) XOR back to the
original record at every in-range bit position.  The C++
`setup_server_database` only lists filenames and writes nothing, so the
invariant established at setup is never disturbed. -/
theorem share_invariant (record : List Nat) (rand : Nat → Nat) (j : Nat)
    (hj : j < record.length) (hb : record.getD j 0 ≤ 1) :
    bxor ((ShareStore_split record rand).1.getD j 0)
      ((ShareStore_split record rand).2.getD j 0) = record.getD j 0 := by
  unfold ShareStore_split mkRand
  rw [getD_map_range _ hj, getD_map_range _ hj]
  unfold bxor
  omega

theorem share_invariant_witness :
    (0 < ([1, 0] : List Nat).length ∧ ([1, 0] : List Nat).getD 0 0 ≤ 1) ∧
    bxor ((ShareStore_split [1, 0] (fun _ => 1)).1.getD 0 0)
      ((ShareStore_split [1, 0] (fun _ => 1)).2.getD 0 0) =
      ([1, 0] : List Nat).getD 0 0 :=
  ⟨⟨by decide, by decide⟩,
   share_invariant [1, 0] (fun _ => 1) 0 (by decide) (by decide)⟩

/-- Claim C10: `server_process_query` processes only the record at the
smallest index `i` with `query[i] == 1` (returning right after it,
ignoring all later set bits), and for a query with no set bit in range
it returns the empty response with the file system untouched and no
record read. -/
theorem server_processes_first_hit_only (query : List Nat)
    (videoFiles : List String) (fs : FS) (rnd1 rnd2 : Nat → Nat)
    (w1 w2 : Bool) :
    server_process_query query videoFiles fs rnd1 rnd2 w1 w2 =
      match firstHit query videoFiles.length with
      | none => ⟨[], fs, []⟩
      | some i => processRecord fs rnd1 rnd2 w1 w2 i (videoFiles.getD i ("")) := by
  unfold server_process_query firstHit
  exact serverLoop_find query videoFiles fs rnd1 rnd2 w1 w2 (List.range videoFiles.length)

/-- Claim C1 (failing input): with one record `v1.binary.txt` whose
shares are `D0 = [1]` and `D1 = [1]` (so the record, the XOR of the
shares, is `[0]`), the full pipeline — encode index 0, server
evaluation, client decode — returns `[1]`, the raw `D0` share re-read
from disk, not the record `[0]`. -/
theorem pipeline_returns_share_not_record :
    client_decode_pir_result
        (server_process_query (client_generate_query 0 1)
          (setup_server_database exampleFS) exampleFS
          (fun _ => 0) (fun _ => 0) true true).response
        0
        (server_process_query (client_generate_query 0 1)
          (setup_server_database exampleFS) exampleFS
          (fun _ => 0) (fun _ => 0) true true).fs = [1] ∧
    List.zipWith bxor ((exampleFS.d0Content ("v1.binary.txt")).getD [])
      ((exampleFS.d1Content ("v1.binary.txt")).getD []) = [0] ∧
    ([1] : List Nat) ≠ [0] := by
  exact ⟨by decide, by decide, by decide⟩

/-- Claim C2 (failing input): over the two-record database, the server's
share-read trace for target index 0 is `[(0, 0), (1, 0)]` but for target
index 1 it is `[(0, 1), (1, 1)]` — the evaluator visits only the
selected record, so the access sequences for `k1 = 0` and `k2 = 1`
differ in the positions visited. -/
theorem server_trace_depends_on_index :
    (server_process_query (client_generate_query 0 2)
        (setup_server_database exampleFS2) exampleFS2
        (fun _ => 0) (fun _ => 0) true true).trace = [(0, 0), (1, 0)] ∧
    (server_process_query (client_generate_query 1 2)
        (setup_server_database exampleFS2) exampleFS2
        (fun _ => 0) (fun _ => 0) true true).trace = [(0, 1), (1, 1)] ∧
    ([((0 : Nat), (0 : Nat)), (1, 0)] : List (Nat × Nat)) ≠ [(0, 1), (1, 1)] := by
  exact ⟨by decide, by decide, by decide⟩

/-- Claim C4 (failing input): on the one-record database with shares
`D0 = [1]`, `D1 = [1]` and selection `[1]`, the spec's evaluator formula
(`specEvaluate`, the GF(2) inner product over all indices) yields `[1]`
for either replica's share column, but `server_process_query` (with the
all-zero randomness stream) returns `[0]` — the code computes the
randomness-masked sum `D0·r1 + D1·r2` of the single selected record,
not the spec's inner product. -/
theorem server_response_not_inner_product :
    (server_process_query [1] (setup_server_database exampleFS) exampleFS
        (fun _ => 0) (fun _ => 0) true true).response = [0] ∧
    specEvaluate [1] [(exampleFS.d0Content ("v1.binary.txt")).getD []] 1 = [1] ∧
    specEvaluate [1] [(exampleFS.d1Content ("v1.binary.txt")).getD []] 1 = [1] ∧
    ([0] : List Nat) ≠ [1] := by
  exact ⟨by decide, by decide, by decide, by decide⟩

/-- Claim C8 (failing input): when writing `r1.txt` fails (`w1 = false`),
`server_process_query` silently returns the raw `D0` share `[1]` of the
selected record instead of propagating an error (`{}`), and when
`r1.txt`/`r2.txt` are missing at decode time, `client_decode_pir_result`
silently substitutes the original record re-read from `D0` instead of
failing. -/
theorem silent_fallbacks_on_failure :
    (server_process_query [1] (setup_server_database exampleFS) exampleFS
        (fun _ => 0) (fun _ => 0) false false).response =
      (exampleFS.d0Content ("v1.binary.txt")).getD [] ∧
    (exampleFS.d0Content ("v1.binary.txt")).getD [] ≠ ([] : List Nat) ∧
    exampleFS.r1File = none ∧
    client_decode_pir_result [] 0 exampleFS =
      (exampleFS.d0Content ("v1.binary.txt")).getD [] := by
  exact ⟨by decide, by decide, by decide, by decide⟩

/-- Claim C9 (failing input): a successful query writes the per-query
masking randomness to durable storage — starting from a file system
with no `r1.txt`/`r2.txt`, after `server_process_query` both files hold
the freshly drawn random bit streams. -/
theorem server_persists_query_randomness :
    exampleFS.r1File = none ∧ exampleFS.r2File = none ∧
    (server_process_query [1] (setup_server_database exampleFS) exampleFS
        (fun _ => 0) (fun _ => 0) true true).fs.r1File =
      some (mkRand (fun _ => 0) 1) ∧
    (server_process_query [1] (setup_server_database exampleFS) exampleFS
        (fun _ => 0) (fun _ => 0) true true).fs.r2File =
      some (mkRand (fun _ => 0) 1) := by
  exact ⟨by decide, by decide, by decide, by decide⟩
